import Mathlib

/-
Shallow embedding of the write/read consistency pipeline of the
library-management-system repository (book-service).

Embedded source files:
  * shared-kernel: AggregateRoot.ts, DomainEvent.ts, DomainException.ts
  * book-service domain: Book aggregate, Quote/Note entities,
    Title/PageCount/Rating/ISBN/ReadingStatus value objects
  * book-service infrastructure: PostgresBookRepository (write store),
    postgres.ts transaction wrapper, BookProjections (MongoDB read model),
    RabbitMQEventPublisher
  * book-service application: CreateBookHandler, UpdateBookHandler,
    MarkBookAsFinishedHandler, AddQuoteHandler

Modelling conventions:
  * JS Date values are modelled as Nat timestamps; every `new Date()` call
    site receives the timestamp through a `now : Nat` parameter, and
    `new Date().getFullYear()` through a `currentYear : Int` parameter.
  * JS numbers that the code range-checks are modelled as Int.  The
    `Number.isInteger` guards of the source are always true in that model
    and are noted in comments rather than embedded.
  * Thrown exceptions become an explicit `DomainError` value.  Aggregate
    methods that can mutate `this.state` before throwing return
    `Book × Option DomainError`: the returned book carries exactly the
    mutations performed before the throw (none, when the source validates
    before mutating).  Constructor-style functions return `Except`.
  * UUID generation (`UniqueId.generateUUID`) is modelled by passing the
    generated identifier as an explicit argument.
-/

namespace LMS

/-! ## DomainException / thrown errors -/

/-- Errors thrown by the embedded code: `domainException` models the
shared-kernel `DomainException(message, code)`, `jsError` models a plain
`new Error(message)`, `entityNotFound` models `EntityNotFoundException`. -/
inductive DomainError where
  | domainException (message : String) (code : String)
  | jsError (message : String)
  | entityNotFound (entity : String) (id : String)
deriving Repr, DecidableEq

/-! ## Character / string helpers shared by the value objects -/

/-- Whitespace class used by JS `trim` and the `\s` regex class
(restricted to the ASCII whitespace the repository's data can contain). -/
def isWs (c : Char) : Bool :=
  c = ' ' || c = '\t' || c = '\n' || c = '\r'

/-- Drop leading and trailing whitespace, as JS `String.prototype.trim`. -/
def trimChars (l : List Char) : List Char :=
  ((l.dropWhile isWs).reverse.dropWhile isWs).reverse

/-- JS `s.trim()`. -/
def trimString (s : String) : String :=
  String.mk (trimChars s.data)

/-- Replace every whitespace run by a single space, as
`replace(/\s+/g, ' ')`.  The flag records whether the previous character
belonged to a whitespace run. -/
def collapseWsGo : Bool → List Char → List Char
  | _, [] => []
  | prevWs, c :: rest =>
    if isWs c then
      if prevWs then collapseWsGo true rest
      else ' ' :: collapseWsGo true rest
    else c :: collapseWsGo false rest

/-! ## Value objects -/

/-- `Title.normalize`: `title.trim().replace(/\s+/g, ' ')`. -/
def Title.normalize (s : String) : String :=
  String.mk (collapseWsGo false (trimChars s.data))

/-- `Title.create`: validates and normalizes; the value object is
represented by its normalized string value. -/
def Title.create (title : String) : Except DomainError String :=
  if title = "" then
    .error (.domainException "Title is required" "INVALID_TITLE")
  else
    let normalized := Title.normalize title
    if normalized.length < 1 then
      .error (.domainException "Title cannot be empty" "INVALID_TITLE")
    else if normalized.length > 500 then
      .error (.domainException "Title cannot exceed 500 characters" "INVALID_TITLE")
    else .ok normalized

/-- `PageCount.create`: 1 ≤ pages ≤ 50000 (the `Number.isInteger` guard
is inherent in the Int model). -/
def PageCount.create (pages : Int) : Except DomainError Int :=
  if pages < 1 then
    .error (.domainException "Page count must be at least 1" "INVALID_PAGE_COUNT")
  else if pages > 50000 then
    .error (.domainException "Page count cannot exceed 50000" "INVALID_PAGE_COUNT")
  else .ok pages

/-- `Rating.create`: integer between 1 and 5. -/
def Rating.create (rating : Int) : Except DomainError Int :=
  if rating < 1 ∨ rating > 5 then
    .error (.domainException "Rating must be between 1 and 5" "INVALID_RATING")
  else .ok rating

/-- `Book.validateYearRead`: integer between 1900 and currentYear + 1. -/
def validateYearRead (currentYear : Int) (year : Int) : Except DomainError Unit :=
  if year < 1900 ∨ year > currentYear + 1 then
    .error (.domainException "Year must be between 1900 and currentYear plus 1" "INVALID_YEAR")
  else .ok ()

/-- Digit value of an ASCII digit character. -/
def digitVal (c : Char) : Nat := c.toNat - '0'.toNat

/-- `ISBN.normalize`: `isbn.replace(/[-\s]/g, '').toUpperCase()`. -/
def ISBN.normalize (s : String) : String :=
  String.mk ((s.data.filter (fun c => !(c = '-' || isWs c))).map Char.toUpper)

/-- `ISBN.validateISBN10` checksum over the normalized characters. -/
def ISBN.validateISBN10 (l : List Char) : Bool :=
  l.length = 10 &&
  (l.take 9).all Char.isDigit &&
  (match l.get? 9 with
   | some c => c.isDigit || c = 'X'
   | none => false) &&
  (let sum := ((l.take 9).enum.map (fun p => digitVal p.2 * (10 - p.1))).sum
   let check := match l.get? 9 with
     | some c => if c = 'X' then 10 else digitVal c
     | none => 0
   (sum + check) % 11 = 0)

/-- `ISBN.validateISBN13` checksum over the normalized characters. -/
def ISBN.validateISBN13 (l : List Char) : Bool :=
  l.length = 13 &&
  l.all Char.isDigit &&
  (let sum := ((l.take 12).enum.map
      (fun p => if p.1 % 2 = 0 then digitVal p.2 else digitVal p.2 * 3)).sum
   let check := (10 - sum % 10) % 10
   match l.get? 12 with
   | some c => check = digitVal c
   | none => false)

/-- `ISBN.isValid` on an already-normalized string. -/
def ISBN.isValidNormalized (s : String) : Bool :=
  if s.length = 10 then ISBN.validateISBN10 s.data
  else if s.length = 13 then ISBN.validateISBN13 s.data
  else false

/-- `ISBN.create`: normalizes, validates the checksum, and keeps the
normalized value. -/
def ISBN.create (isbn : String) : Except DomainError String :=
  let normalized := ISBN.normalize isbn
  if ISBN.isValidNormalized normalized then .ok normalized
  else .error (.domainException "Invalid ISBN" "INVALID_ISBN")

/-! ## ReadingStatus -/

/-- The `ReadingStatus` enum. -/
inductive ReadingStatus where
  | TO_READ
  | READING
  | FINISHED
  | ABANDONED
deriving Repr, DecidableEq

/-- The string value of each enum member (TS enums are string-valued). -/
def ReadingStatus.toStr : ReadingStatus → String
  | .TO_READ => "TO_READ"
  | .READING => "READING"
  | .FINISHED => "FINISHED"
  | .ABANDONED => "ABANDONED"

namespace ReadingStatusUtils

/-- `ReadingStatusUtils.getAllowedTransitions`: the allowed-transition table. -/
def getAllowedTransitions : ReadingStatus → List ReadingStatus
  | .TO_READ => [.READING]
  | .READING => [.FINISHED, .ABANDONED, .TO_READ]
  | .FINISHED => [.READING]
  | .ABANDONED => [.READING, .TO_READ]

/-- `ReadingStatusUtils.canTransition`. -/
def canTransition (src dst : ReadingStatus) : Bool :=
  (getAllowedTransitions src).contains dst

/-- `ReadingStatusUtils.fromString`: throws `Invalid reading status` on an
unknown string. -/
def fromString (value : String) : Except DomainError ReadingStatus :=
  if value = "TO_READ" then .ok .TO_READ
  else if value = "READING" then .ok .READING
  else if value = "FINISHED" then .ok .FINISHED
  else if value = "ABANDONED" then .ok .ABANDONED
  else .error (.jsError ("Invalid reading status: " ++ value))

end ReadingStatusUtils

/-! ## Domain events -/

/-- The sparse change-set of `BookUpdatedEvent.payload.changes`.  A field
is `some _` exactly when the corresponding key is present on the runtime
object (so `yearRead = some none` models `yearRead: null`).  `coverUrl`
is present at runtime (via the cast in `updateDetails`) although the
declared payload type omits it. -/
structure UpdateChanges where
  title : Option String := none
  pageCount : Option Int := none
  yearRead : Option (Option Int) := none
  rating : Option (Option Int) := none
  coverUrl : Option (Option String) := none
  status : Option ReadingStatus := none
deriving Repr, DecidableEq

/-- True when no key is present (`Object.keys(actualChanges).length == 0`). -/
def UpdateChanges.isEmpty (c : UpdateChanges) : Bool :=
  c.title = none && c.pageCount = none && c.yearRead = none &&
  c.rating = none && c.coverUrl = none && c.status = none

/-- The five domain events of the book service, carrying their payloads.
Event identity metadata (eventId, occurredAt) is generated per event at
construction; it does not influence any claim and is omitted. -/
inductive DomainEvent where
  | bookCreated (bookId : String) (title : String) (authorId : String)
      (pageCount : Int) (isbn : Option String) (yearRead : Option Int)
      (status : ReadingStatus)
  | bookUpdated (bookId : String) (changes : UpdateChanges) (updatedAt : Nat)
  | bookDeleted (bookId : String) (authorId : String) (pageCount : Int)
      (yearRead : Option Int)
  | bookFinished (bookId : String) (authorId : String) (title : String)
      (pageCount : Int) (yearRead : Int) (rating : Option Int) (finishedAt : Nat)
  | quoteAdded (bookId : String) (quoteId : String) (content : String)
      (page : Option Int)
deriving Repr, DecidableEq

/-- `event.eventName` — the `EVENT_NAME` constant of each event class. -/
def DomainEvent.eventName : DomainEvent → String
  | .bookCreated .. => "library.book.created"
  | .bookUpdated .. => "library.book.updated"
  | .bookDeleted .. => "library.book.deleted"
  | .bookFinished .. => "library.book.finished"
  | .quoteAdded .. => "library.book.quote_added"

/-! ## Quote and Note entities -/

/-- The `Quote` entity. -/
structure Quote where
  id : String
  bookId : String
  content : String
  page : Option Int
  createdAt : Nat
deriving Repr, DecidableEq

/-- `Quote.create`: validates content and page, stores trimmed content. -/
def Quote.create (quoteId : String) (bookId : String) (content : String)
    (page : Option Int) (now : Nat) : Except DomainError Quote :=
  if content = "" ∨ trimString content = "" then
    .error (.domainException "Quote content cannot be empty" "INVALID_QUOTE")
  else if content.length > 5000 then
    .error (.domainException "Quote content cannot exceed 5000 characters" "INVALID_QUOTE")
  else
    match page with
    | some p =>
      if p < 1 then
        .error (.domainException "Page number must be a positive integer" "INVALID_QUOTE")
      else .ok { id := quoteId, bookId, content := trimString content, page, createdAt := now }
    | none => .ok { id := quoteId, bookId, content := trimString content, page := none, createdAt := now }

/-- The `Note` entity. -/
structure Note where
  id : String
  bookId : String
  content : String
  chapter : Option String
  createdAt : Nat
  updatedAt : Nat
deriving Repr, DecidableEq

/-- `Note.create`: validates content and chapter, stores trimmed values,
sets `createdAt = updatedAt = now`. -/
def Note.create (noteId : String) (bookId : String) (content : String)
    (chapter : Option String) (now : Nat) : Except DomainError Note :=
  if content = "" ∨ trimString content = "" then
    .error (.domainException "Note content cannot be empty" "INVALID_NOTE")
  else if content.length > 10000 then
    .error (.domainException "Note content cannot exceed 10000 characters" "INVALID_NOTE")
  else
    match chapter with
    | some ch =>
      if ch.length > 255 then
        .error (.domainException "Chapter name cannot exceed 255 characters" "INVALID_NOTE")
      else .ok { id := noteId, bookId, content := trimString content,
                 chapter := some (trimString ch), createdAt := now, updatedAt := now }
    | none => .ok { id := noteId, bookId, content := trimString content,
                    chapter := none, createdAt := now, updatedAt := now }

/-! ## The Book aggregate -/

/-- The Book aggregate root: `BookState` plus the `AggregateRoot` fields
`_version` and `_domainEvents`.  Value objects are represented by their
underlying values. -/
structure Book where
  id : String
  title : String
  authorId : String
  pageCount : Int
  isbn : Option String
  yearRead : Option Int
  status : ReadingStatus
  rating : Option Int
  coverUrl : Option String
  quotes : List Quote
  notes : List Note
  createdAt : Nat
  updatedAt : Nat
  version : Nat
  domainEvents : List DomainEvent
deriving Repr, DecidableEq

/-- `AggregateRoot.clearDomainEvents`. -/
def Book.clearDomainEvents (b : Book) : Book :=
  { b with domainEvents := [] }

/-- `AggregateRoot.hasUncommittedEvents`. -/
def Book.hasUncommittedEvents (b : Book) : Bool :=
  !b.domainEvents.isEmpty

/-- `CreateBookProps` (optional JS fields become Options). -/
structure CreateBookProps where
  title : String
  authorId : String
  pageCount : Int
  isbn : Option String := none
  yearRead : Option Int := none
  status : Option ReadingStatus := none
  rating : Option Int := none
  coverUrl : Option String := none
deriving Repr, DecidableEq

/-- The `props.isbn ? ISBN.create(props.isbn) : null` field of
`Book.create` (JS truthiness: an empty string counts as absent). -/
def createIsbnField (isbn : Option String) : Except DomainError (Option String) :=
  match isbn with
  | some s => if s = "" then .ok none else (ISBN.create s).map some
  | none => .ok none

/-- The `props.rating ? Rating.create(props.rating) : null` field of
`Book.create` (JS truthiness: a zero rating counts as absent). -/
def createRatingField (rating : Option Int) : Except DomainError (Option Int) :=
  match rating with
  | some r => if r = 0 then .ok none else (Rating.create r).map some
  | none => .ok none

/-- The `props.coverUrl?.trim() || null` field of `Book.create`. -/
def createCoverUrlField (coverUrl : Option String) : Option String :=
  match coverUrl with
  | some s => let t := trimString s; if t = "" then none else some t
  | none => none

/-- `Book.create`: validates inputs in source order, builds the state and
appends a single `BookCreatedEvent`.  `generatedId` stands for
`BookId.generate()`. -/
def Book.create (props : CreateBookProps) (generatedId : String) (now : Nat)
    (currentYear : Int) : Except DomainError Book :=
  match Title.create props.title with
  | .error e => .error e
  | .ok title =>
  match PageCount.create props.pageCount with
  | .error e => .error e
  | .ok pageCount =>
  match createIsbnField props.isbn with
  | .error e => .error e
  | .ok isbn =>
  match createRatingField props.rating with
  | .error e => .error e
  | .ok rating =>
  let status := props.status.getD .TO_READ
  let yearRead := props.yearRead
  if props.authorId = "" ∨ trimString props.authorId = "" then
    .error (.domainException "Author ID is required" "INVALID_BOOK")
  else
  match (match yearRead with
         | some y => validateYearRead currentYear y
         | none => .ok ()) with
  | .error e => .error e
  | .ok _ =>
  if status = .FINISHED ∧ yearRead = none then
    .error (.domainException "Year read is required when book status is FINISHED" "INVALID_BOOK")
  else
  let authorId := trimString props.authorId
  let coverUrl := createCoverUrlField props.coverUrl
  .ok { id := generatedId, title, authorId, pageCount, isbn, yearRead, status,
        rating, coverUrl, quotes := [], notes := [],
        createdAt := now, updatedAt := now, version := 0,
        domainEvents := [.bookCreated generatedId title authorId pageCount
                           isbn yearRead status] }

/-- Row-shaped props for `Book.reconstitute`. -/
structure ReconstituteProps where
  id : String
  title : String
  authorId : String
  pageCount : Int
  isbn : Option String
  yearRead : Option Int
  status : String
  rating : Option Int
  coverUrl : Option String
  quotes : List Quote
  notes : List Note
  version : Nat
  createdAt : Nat
  updatedAt : Nat
deriving Repr, DecidableEq

/-- `Book.reconstitute`: rebuilds the aggregate from trusted data without
raising events; only `ReadingStatusUtils.fromString` can throw. -/
def Book.reconstitute (p : ReconstituteProps) : Except DomainError Book :=
  match ReadingStatusUtils.fromString p.status with
  | .error e => .error e
  | .ok status =>
  .ok { id := p.id, title := p.title, authorId := p.authorId,
           pageCount := p.pageCount, isbn := p.isbn, yearRead := p.yearRead,
           status, rating := p.rating, coverUrl := p.coverUrl,
           quotes := p.quotes, notes := p.notes,
           createdAt := p.createdAt, updatedAt := p.updatedAt,
           version := p.version, domainEvents := [] }

/-! ## Book business operations

Mutating methods return `Book × Option DomainError`: `some e` means the
method threw `e`, and the returned book carries exactly the mutations the
source performed before the throw. -/

/-- `updateDetails` argument: a field is `some _` when the key is present
(`!== undefined`); `yearRead`, `rating`, `coverUrl` can be explicitly
`null`, modelled as `some none`. -/
structure UpdateDetailsArg where
  title : Option String := none
  pageCount : Option Int := none
  yearRead : Option (Option Int) := none
  rating : Option (Option Int) := none
  coverUrl : Option (Option String) := none
deriving Repr, DecidableEq

/-- Intermediate state of one `updateDetails` field block: current book,
accumulated `actualChanges`, and the thrown error if any. -/
abbrev UpdStep := Book × UpdateChanges × Option DomainError

/-- Sequencing of the field blocks of `updateDetails`: a thrown error
skips the remaining blocks. -/
def updChain (s : UpdStep) (f : Book → UpdateChanges → UpdStep) : UpdStep :=
  match s with
  | (b, ac, some e) => (b, ac, some e)
  | (b, ac, none) => f b ac

/-- The `changes.title !== undefined` block of `updateDetails`. -/
def updTitle (arg : Option String) (b : Book) (ac : UpdateChanges) : UpdStep :=
  match arg with
  | none => (b, ac, none)
  | some t =>
    match Title.create t with
    | .error e => (b, ac, some e)
    | .ok newTitle =>
      if newTitle ≠ b.title then
        ({ b with title := newTitle }, { ac with title := some newTitle }, none)
      else (b, ac, none)

/-- The `changes.pageCount !== undefined` block of `updateDetails`. -/
def updPageCount (arg : Option Int) (b : Book) (ac : UpdateChanges) : UpdStep :=
  match arg with
  | none => (b, ac, none)
  | some pc =>
    match PageCount.create pc with
    | .error e => (b, ac, some e)
    | .ok newPageCount =>
      if newPageCount ≠ b.pageCount then
        ({ b with pageCount := newPageCount }, { ac with pageCount := some newPageCount }, none)
      else (b, ac, none)

/-- The `changes.yearRead !== undefined` block of `updateDetails`. -/
def updYearRead (currentYear : Int) (arg : Option (Option Int)) (b : Book)
    (ac : UpdateChanges) : UpdStep :=
  match arg with
  | none => (b, ac, none)
  | some yr =>
    let proceed : UpdStep :=
      if yr ≠ b.yearRead then
        ({ b with yearRead := yr }, { ac with yearRead := some yr }, none)
      else (b, ac, none)
    match yr with
    | some y =>
      match validateYearRead currentYear y with
      | .error e => (b, ac, some e)
      | .ok _ => proceed
    | none => proceed

/-- The `changes.rating !== undefined` block of `updateDetails`
(`changes.rating !== null ? Rating.create(changes.rating) : null`,
then compared against `this.state.rating?.value ?? null`). -/
def updRating (arg : Option (Option Int)) (b : Book) (ac : UpdateChanges) : UpdStep :=
  match arg with
  | none => (b, ac, none)
  | some r =>
    let newRatingE : Except DomainError (Option Int) :=
      match r with
      | some v => (Rating.create v).map some
      | none => .ok none
    match newRatingE with
    | .error e => (b, ac, some e)
    | .ok newRating =>
      if newRating ≠ b.rating then
        ({ b with rating := newRating }, { ac with rating := some newRating }, none)
      else (b, ac, none)

/-- The `changes.coverUrl !== undefined` block of `updateDetails`
(`changes.coverUrl?.trim() || null`). -/
def updCoverUrl (arg : Option (Option String)) (b : Book) (ac : UpdateChanges) : UpdStep :=
  match arg with
  | none => (b, ac, none)
  | some cu =>
    let newCoverUrl : Option String :=
      match cu with
      | some s => let t := trimString s; if t = "" then none else some t
      | none => none
    if newCoverUrl ≠ b.coverUrl then
      ({ b with coverUrl := newCoverUrl }, { ac with coverUrl := some newCoverUrl }, none)
    else (b, ac, none)

/-- `Book.updateDetails`: per-field no-op detection, then one
`BookUpdatedEvent` carrying the sparse change-set iff anything changed. -/
def Book.updateDetails (b : Book) (changes : UpdateDetailsArg) (now : Nat)
    (currentYear : Int) : Book × Option DomainError :=
  let s0 : UpdStep := (b, {}, none)
  let s1 := updChain s0 (updTitle changes.title)
  let s2 := updChain s1 (updPageCount changes.pageCount)
  let s3 := updChain s2 (updYearRead currentYear changes.yearRead)
  let s4 := updChain s3 (updRating changes.rating)
  let s5 := updChain s4 (updCoverUrl changes.coverUrl)
  match s5 with
  | (b1, _, some e) => (b1, some e)
  | (b1, ac, none) =>
    if ac.isEmpty then (b1, none)
    else
      let b2 := { b1 with updatedAt := now }
      ({ b2 with domainEvents := b2.domainEvents ++ [.bookUpdated b.id ac now] }, none)

/-- `Book.changeStatus`: early return on equal status; the transition is
validated before any mutation; the emitted change-set contains only
`status`; if the new status is FINISHED and `yearRead` is null, `yearRead`
is auto-set to the current year after the event has been raised. -/
def Book.changeStatus (b : Book) (newStatus : ReadingStatus) (now : Nat)
    (currentYear : Int) : Book × Option DomainError :=
  if b.status = newStatus then (b, none)
  else if !ReadingStatusUtils.canTransition b.status newStatus then
    (b, some (.domainException
      ("Cannot transition from " ++ b.status.toStr ++ " to " ++ newStatus.toStr)
      "INVALID_STATUS_TRANSITION"))
  else
    let b1 := { b with status := newStatus, updatedAt := now }
    let b2 := { b1 with domainEvents :=
      b1.domainEvents ++ [.bookUpdated b.id { status := some newStatus } now] }
    let b3 :=
      if newStatus = .FINISHED ∧ b.yearRead = none then
        { b2 with yearRead := some currentYear }
      else b2
    (b3, none)

/-- `Book.markAsFinished`: validates `yearRead` (and the rating when
given), then unconditionally sets FINISHED state and appends one
`BookFinishedEvent`.  There is no transition-table check. -/
def Book.markAsFinished (b : Book) (yearRead : Int) (rating : Option Int)
    (now : Nat) (currentYear : Int) : Book × Option DomainError :=
  match validateYearRead currentYear yearRead with
  | .error e => (b, some e)
  | .ok _ =>
    let newRatingE : Except DomainError (Option Int) :=
      match rating with
      | some r => (Rating.create r).map some
      | none => .ok b.rating
    match newRatingE with
    | .error e => (b, some e)
    | .ok newRating =>
      let b1 := { b with status := .FINISHED, yearRead := some yearRead,
                         rating := newRating, updatedAt := now }
      ({ b1 with domainEvents := b1.domainEvents ++
          [.bookFinished b.id b.authorId b.title b.pageCount yearRead newRating now] }, none)

/-- `Book.addQuote`: creates the quote, pushes it, bumps `updatedAt`, and
appends one `QuoteAddedEvent`. -/
def Book.addQuote (b : Book) (content : String) (page : Option Int)
    (now : Nat) (generatedQuoteId : String) : Book × Option DomainError :=
  match Quote.create generatedQuoteId b.id content page now with
  | .error e => (b, some e)
  | .ok q =>
    let b1 := { b with quotes := b.quotes ++ [q], updatedAt := now }
    ({ b1 with domainEvents := b1.domainEvents ++
        [.quoteAdded b.id q.id q.content q.page] }, none)

/-- `Book.markAsDeleted`: only raises `BookDeletedEvent`. -/
def Book.markAsDeleted (b : Book) : Book :=
  { b with domainEvents := b.domainEvents ++
      [.bookDeleted b.id b.authorId b.pageCount b.yearRead] }

/-! ## Write store: PostgresBookRepository over an explicit relational state

`Db` models the three tables; lists keep row order (`id` is the primary
key, so well-formed states have no duplicate ids). -/

/-- A row of the `books` table. -/
structure BookRow where
  id : String
  title : String
  author_id : String
  page_count : Int
  isbn : Option String
  year_read : Option Int
  status : String
  rating : Option Int
  cover_url : Option String
  version : Nat
  created_at : Nat
  updated_at : Nat
deriving Repr, DecidableEq

/-- A row of the `quotes` table. -/
structure QuoteRow where
  id : String
  book_id : String
  content : String
  page : Option Int
  created_at : Nat
deriving Repr, DecidableEq

/-- A row of the `notes` table (it has no `updated_at` column). -/
structure NoteRow where
  id : String
  book_id : String
  content : String
  chapter : Option String
  created_at : Nat
deriving Repr, DecidableEq

/-- The write-store state. -/
structure Db where
  books : List BookRow
  quotes : List QuoteRow
  notes : List NoteRow
deriving Repr, DecidableEq

namespace PostgresBookRepository

/-- The `INSERT INTO books ... VALUES (..., book.version + 1, ...)` of
`insert`. -/
def insert (db : Db) (b : Book) : Db :=
  { db with books := db.books ++
      [{ id := b.id, title := b.title, author_id := b.authorId,
         page_count := b.pageCount, isbn := b.isbn, year_read := b.yearRead,
         status := b.status.toStr, rating := b.rating, cover_url := b.coverUrl,
         version := b.version + 1, created_at := b.createdAt,
         updated_at := b.updatedAt }] }

/-- The conditional `UPDATE books ... WHERE id = $1 AND version = $10` of
`update`: a zero-row result throws
`Error('Optimistic concurrency conflict for Book ...')`. -/
def update (db : Db) (b : Book) : Except DomainError Db :=
  if db.books.any (fun r => r.id = b.id && r.version = b.version) then
    .ok { db with books := db.books.map (fun r =>
      if r.id = b.id && r.version = b.version then
        { r with title := b.title, page_count := b.pageCount, isbn := b.isbn,
                 year_read := b.yearRead, status := b.status.toStr,
                 rating := b.rating, cover_url := b.coverUrl,
                 version := r.version + 1, updated_at := b.updatedAt }
      else r) }
  else .error (.jsError "Optimistic concurrency conflict for Book")

/-- `syncQuotes`: deletes removed quote rows, updates kept ones in place
(content and page only), inserts new quotes preserving `createdAt`. -/
def syncQuotes (db : Db) (b : Book) : Db :=
  let existingIds := (db.quotes.filter (fun r => r.book_id = b.id)).map (·.id)
  let currentIds := b.quotes.map (·.id)
  let deleteIds := existingIds.filter (fun i => !currentIds.contains i)
  let afterDelete := db.quotes.filter (fun r => !deleteIds.contains r.id)
  let afterUpsert := b.quotes.foldl (fun rows q =>
    if existingIds.contains q.id then
      rows.map (fun r => if r.id = q.id then { r with content := q.content, page := q.page } else r)
    else rows ++ [{ id := q.id, book_id := b.id, content := q.content,
                    page := q.page, created_at := q.createdAt }]) afterDelete
  { db with quotes := afterUpsert }

/-- `syncNotes`: same reconciliation for notes (no `updated_at` column to
write). -/
def syncNotes (db : Db) (b : Book) : Db :=
  let existingIds := (db.notes.filter (fun r => r.book_id = b.id)).map (·.id)
  let currentIds := b.notes.map (·.id)
  let deleteIds := existingIds.filter (fun i => !currentIds.contains i)
  let afterDelete := db.notes.filter (fun r => !deleteIds.contains r.id)
  let afterUpsert := b.notes.foldl (fun rows n =>
    if existingIds.contains n.id then
      rows.map (fun r => if r.id = n.id then { r with content := n.content, chapter := n.chapter } else r)
    else rows ++ [{ id := n.id, book_id := b.id, content := n.content,
                    chapter := n.chapter, created_at := n.createdAt }]) afterDelete
  { db with notes := afterUpsert }

/-- The body of `save` inside the transaction callback: existence check,
insert-or-update, child synchronization. -/
def saveTx (db : Db) (b : Book) : Except DomainError Db :=
  match (if db.books.any (fun r => r.id = b.id)
         then update db b else .ok (insert db b)) with
  | .error e => .error e
  | .ok db1 => .ok (syncNotes (syncQuotes db1 b) b)

/-- `save` as observed by the caller, with the `transaction` wrapper of
postgres.ts: on any throw the transaction is rolled back (the stored state
is unchanged) and the error is rethrown. -/
def save (db : Db) (b : Book) : Db × Option DomainError :=
  match saveTx db b with
  | .ok db1 => (db1, none)
  | .error e => (db, some e)

/-- Generic stable insertion into a createdAt-sorted list (belongs after
all strictly earlier keys); used to model `ORDER BY created_at`. -/
def insertByKey {α : Type} (key : α → Nat) (x : α) : List α → List α
  | [] => [x]
  | y :: l => if key x < key y then x :: y :: l else y :: insertByKey key x l

/-- Insertion sort by a Nat key, modelling `ORDER BY created_at`. -/
def sortByKey {α : Type} (key : α → Nat) : List α → List α
  | [] => []
  | x :: l => insertByKey key x (sortByKey key l)

/-- `findById`: fetches the book row, its quotes and notes ordered by
`created_at`, and reconstitutes the aggregate via `toAggregate`.  A note's
`updatedAt` is reconstituted from `created_at` because the notes table has
no `updated_at` column. -/
def findById (db : Db) (bookId : String) : Except DomainError (Option Book) :=
  match db.books.find? (fun r => r.id = bookId) with
  | none => .ok none
  | some row =>
    let quoteRows := sortByKey (·.created_at) (db.quotes.filter (fun r => r.book_id = bookId))
    let noteRows := sortByKey (·.created_at) (db.notes.filter (fun r => r.book_id = bookId))
    let quotes : List Quote := quoteRows.map (fun r =>
      { id := r.id, bookId := r.book_id, content := r.content,
        page := r.page, createdAt := r.created_at })
    let notes : List Note := noteRows.map (fun r =>
      { id := r.id, bookId := r.book_id, content := r.content,
        chapter := r.chapter, createdAt := r.created_at,
        updatedAt := r.created_at })
    (Book.reconstitute
      { id := row.id, title := row.title, authorId := row.author_id,
        pageCount := row.page_count, isbn := row.isbn,
        yearRead := row.year_read, status := row.status,
        rating := row.rating, coverUrl := row.cover_url,
        quotes, notes, version := row.version,
        createdAt := row.created_at, updatedAt := row.updated_at }).map some

end PostgresBookRepository

/-! ## Read model: BookProjections over a MongoDB-like document store -/

/-- An embedded quote sub-document of the read model. -/
structure QuoteDoc where
  id : String
  content : String
  page : Option Int
  createdAt : Nat
deriving Repr, DecidableEq

/-- An embedded note sub-document of the read model. -/
structure NoteDoc where
  id : String
  content : String
  chapter : Option String
  createdAt : Nat
deriving Repr, DecidableEq

/-- The denormalized `BookDocument` of the read model. -/
structure BookDoc where
  mongoId : String
  title : String
  authorId : String
  authorName : String
  pageCount : Int
  isbn : Option String
  yearRead : Option Int
  status : String
  rating : Option Int
  coverUrl : Option String
  quotes : List QuoteDoc
  notes : List NoteDoc
  quotesCount : Nat
  notesCount : Nat
  createdAt : Nat
  updatedAt : Nat
deriving Repr, DecidableEq

/-- The `books` read collection; `mongoId` is the unique `\x5fid` key. -/
abbrev ReadDb := List BookDoc

namespace BookProjections

/-- `fetchAuthorName` placeholder:
`'Author ' + authorId.substring(0, 8)`. -/
def fetchAuthorName (authorId : String) : String :=
  "Author " ++ authorId.take 8

/-- Payload of `BookCreatedEvent` as consumed by the projection. -/
structure BookCreatedEventPayload where
  bookId : String
  title : String
  authorId : String
  pageCount : Int
  isbn : Option String
  yearRead : Option Int
  status : String
deriving Repr, DecidableEq

/-- Payload of `BookUpdatedEvent` as consumed by the projection. -/
structure BookUpdatedEventPayload where
  bookId : String
  changes : UpdateChanges
  updatedAt : Nat
deriving Repr, DecidableEq

/-- Payload of `QuoteAddedEvent` as consumed by the projection. -/
structure QuoteAddedEventPayload where
  bookId : String
  quoteId : String
  content : String
  page : Option Int
deriving Repr, DecidableEq

/-- `onBookCreated` builds a fresh document and calls `insertOne`.
MongoDB's `insertOne` throws a duplicate-key error when a document with
the same key already exists (there is no insert-if-absent and no
processed-event marker). -/
def onBookCreated (p : BookCreatedEventPayload) (now : Nat) (db : ReadDb) :
    Except DomainError ReadDb :=
  if db.any (fun d => d.mongoId = p.bookId) then
    .error (.jsError "E11000 duplicate key error")
  else
    .ok (db ++ [{ mongoId := p.bookId, title := p.title, authorId := p.authorId,
                  authorName := fetchAuthorName p.authorId,
                  pageCount := p.pageCount, isbn := p.isbn,
                  yearRead := p.yearRead, status := p.status,
                  rating := none, coverUrl := none, quotes := [], notes := [],
                  quotesCount := 0, notesCount := 0,
                  createdAt := now, updatedAt := now }])

/-- `onBookUpdated`: `$set` of `updatedAt` plus the fields present in the
sparse change-set (note: the handler never copies `coverUrl`). -/
def onBookUpdated (p : BookUpdatedEventPayload) (db : ReadDb) : ReadDb :=
  db.map (fun d =>
    if d.mongoId = p.bookId then
      let d1 := { d with updatedAt := p.updatedAt }
      let d2 := match p.changes.title with
        | some t => { d1 with title := t }
        | none => d1
      let d3 := match p.changes.pageCount with
        | some pc => { d2 with pageCount := pc }
        | none => d2
      let d4 := match p.changes.yearRead with
        | some yr => { d3 with yearRead := yr }
        | none => d3
      let d5 := match p.changes.rating with
        | some r => { d4 with rating := r }
        | none => d4
      match p.changes.status with
      | some st => { d5 with status := st.toStr }
      | none => d5
    else d)

/-- `onBookDeleted`: `deleteOne` by key. -/
def onBookDeleted (bookId : String) (db : ReadDb) : ReadDb :=
  db.filter (fun d => d.mongoId ≠ bookId)

/-- `onQuoteAdded`: unconditional `$push` of the quote, `$inc` of
`quotesCount` and `$set` of `updatedAt` on the matching document. -/
def onQuoteAdded (p : QuoteAddedEventPayload) (now : Nat) (db : ReadDb) : ReadDb :=
  db.map (fun d =>
    if d.mongoId = p.bookId then
      let newQuote : QuoteDoc :=
        { id := p.quoteId, content := p.content, page := p.page, createdAt := now }
      { d with quotes := d.quotes ++ [newQuote],
               quotesCount := d.quotesCount + 1,
               updatedAt := now }
    else d)

end BookProjections

/-! ## Event publisher: RabbitMQEventPublisher -/

namespace RabbitMQEventPublisher

/-- One `channel.publish(...)` invocation as the broker observes it. -/
structure PublishCall where
  exchange : String
  routingKey : String
  message : DomainEvent
  persistent : Bool
deriving Repr, DecidableEq

/-- `publish(event)`: publishes the serialized event on the
`library.events` topic exchange with the event name as the routing key
and the persistent delivery flag. -/
def publishCall (e : DomainEvent) : PublishCall :=
  { exchange := "library.events", routingKey := e.eventName,
    message := e, persistent := true }

/-- `publishAll(events)`: one awaited `publish` per event, in list
order. -/
def publishAllCalls : List DomainEvent → List PublishCall
  | [] => []
  | e :: rest => publishCall e :: publishAllCalls rest

end RabbitMQEventPublisher

/-! ## Command handlers as effect traces

The claims about handler ordering (persist before publish, clear only
after publish) are about the order of awaited calls, so each handler body
is interpreted into a trace of the repository/publisher/aggregate calls
it performs.  The outcome of `repository.save` and of each broker
`publish` is abstracted by oracles (`saveOutcome`, `pubOk`), since those
are external I/O from the handler's point of view. -/

/-- The observable calls a handler makes after loading the aggregate. -/
inductive Action where
  | saveCall
  | publish (e : DomainEvent)
  | clearEvents
deriving Repr, DecidableEq

/-- Run `publishAll`: each event is published in order; a failing
`publish` throws and stops the loop.  Returns the publish-call trace and
whether every publish succeeded. -/
def runPublishAll (pubOk : DomainEvent → Bool) : List DomainEvent → List Action × Bool
  | [] => ([], true)
  | e :: rest =>
    if pubOk e then
      let r := runPublishAll pubOk rest
      (Action.publish e :: r.1, r.2)
    else ([Action.publish e], false)

/-- The shared tail of every write handler:
`await save; await publishAll(domainEvents); clearDomainEvents()`.
(`guardEvents` models UpdateBookHandler's `if hasUncommittedEvents`.) -/
def runPersistAndPublish (saveOutcome : Option DomainError)
    (pubOk : DomainEvent → Bool) (guardEvents : Bool) (b : Book) :
    List Action × Except DomainError Book :=
  match saveOutcome with
  | some e => ([Action.saveCall], .error e)
  | none =>
    if guardEvents && !b.hasUncommittedEvents then
      ([Action.saveCall], .ok b)
    else
      if (runPublishAll pubOk b.domainEvents).2 then
        (Action.saveCall :: (runPublishAll pubOk b.domainEvents).1 ++ [Action.clearEvents],
         .ok b.clearDomainEvents)
      else
        (Action.saveCall :: (runPublishAll pubOk b.domainEvents).1,
         .error (.jsError "publish failed"))

/-- `CreateBookHandler.execute` after the duplicate-ISBN check:
`Book.create`, `save`, `publishAll`, `clearDomainEvents`. -/
def runCreateBookHandler (saveOutcome : Option DomainError)
    (pubOk : DomainEvent → Bool) (props : CreateBookProps)
    (generatedId : String) (now : Nat) (currentYear : Int) :
    List Action × Except DomainError Book :=
  match Book.create props generatedId now currentYear with
  | .error e => ([], .error e)
  | .ok book => runPersistAndPublish saveOutcome pubOk false book

/-- `UpdateBookHandler.execute` on a loaded aggregate: `updateDetails`,
`save`, then publish-and-clear guarded by `hasUncommittedEvents`. -/
def runUpdateBookHandler (saveOutcome : Option DomainError)
    (pubOk : DomainEvent → Bool) (book : Book) (changes : UpdateDetailsArg)
    (now : Nat) (currentYear : Int) :
    List Action × Except DomainError Book :=
  match Book.updateDetails book changes now currentYear with
  | (_, some e) => ([], .error e)
  | (b1, none) => runPersistAndPublish saveOutcome pubOk true b1

/-- `MarkBookAsFinishedHandler.execute` on a loaded aggregate. -/
def runMarkBookAsFinishedHandler (saveOutcome : Option DomainError)
    (pubOk : DomainEvent → Bool) (book : Book) (yearRead : Int)
    (rating : Option Int) (now : Nat) (currentYear : Int) :
    List Action × Except DomainError Book :=
  match Book.markAsFinished book yearRead rating now currentYear with
  | (_, some e) => ([], .error e)
  | (b1, none) => runPersistAndPublish saveOutcome pubOk false b1

/-- `AddQuoteHandler.execute` on a loaded aggregate. -/
def runAddQuoteHandler (saveOutcome : Option DomainError)
    (pubOk : DomainEvent → Bool) (book : Book) (content : String)
    (page : Option Int) (now : Nat) (generatedQuoteId : String) :
    List Action × Except DomainError Book :=
  match Book.addQuote book content page now generatedQuoteId with
  | (_, some e) => ([], .error e)
  | (b1, none) => runPersistAndPublish saveOutcome pubOk false b1

/-- The events published in a handler trace. -/
def publishedIn (t : List Action) : List DomainEvent :=
  t.filterMap (fun a => match a with
    | .publish e => some e
    | _ => none)

/-- The persist-before-publish discipline of a handler trace:
if `save` threw, nothing was published and the outbox was not cleared;
when events were published at all, the trace starts with the `save` call;
and the outbox is cleared only as the very last call, after the `save`
call and after every event of some event list has been published. -/
def PersistBeforePublish (tr : List Action) (saveOutcome : Option DomainError) : Prop :=
  (∀ e, saveOutcome = some e → publishedIn tr = [] ∧ Action.clearEvents ∉ tr) ∧
  (publishedIn tr ≠ [] → tr.head? = some Action.saveCall) ∧
  (Action.clearEvents ∈ tr →
    ∃ evs : List DomainEvent,
      tr = Action.saveCall :: evs.map Action.publish ++ [Action.clearEvents])

/-- Normalization/range invariants of an aggregate's stored fields, as
established by `Book.create` and maintained by the mutators; used to show
that re-submitting a field's current value passes the value-object
validation and is detected as a no-op. -/
def ValidBook (currentYear : Int) (b : Book) : Bool :=
  (Title.normalize b.title = b.title) && b.title ≠ "" && b.title.length ≤ 500 &&
  1 ≤ b.pageCount && b.pageCount ≤ 50000 &&
  (match b.yearRead with
   | some y => 1900 ≤ y && y ≤ currentYear + 1
   | none => true) &&
  (match b.rating with
   | some r => 1 ≤ r && r ≤ 5
   | none => true) &&
  (match b.coverUrl with
   | some c => (trimString c = c) && c ≠ ""
   | none => true)

/-! ## Concrete instances used by counterexamples and witnesses -/

/-- A valid `Book.create` input. -/
def exC7Props : CreateBookProps :=
  { title := "Dune", authorId := "a1", pageCount := 412 }

/-- The aggregate produced by `Book.create exC7Props "b1" 0 2024`. -/
def exC7Book : Book :=
  { id := "b1", title := "Dune", authorId := "a1", pageCount := 412,
    isbn := none, yearRead := none, status := .TO_READ, rating := none,
    coverUrl := none, quotes := [], notes := [],
    createdAt := 0, updatedAt := 0, version := 0,
    domainEvents := [.bookCreated "b1" "Dune" "a1" 412 none none .TO_READ] }

/-- A persisted aggregate currently being read, with no `yearRead` yet. -/
def exC10Book : Book :=
  { id := "b2", title := "Solaris", authorId := "a2", pageCount := 204,
    isbn := none, yearRead := none, status := .READING, rating := none,
    coverUrl := none, quotes := [], notes := [],
    createdAt := 0, updatedAt := 0, version := 2, domainEvents := [] }

/-- An abandoned aggregate (ABANDONED → FINISHED is not in the
allowed-transition table). -/
def exC3Book : Book :=
  { id := "b3", title := "Ulysses", authorId := "a3", pageCount := 730,
    isbn := none, yearRead := none, status := .ABANDONED, rating := none,
    coverUrl := none, quotes := [], notes := [],
    createdAt := 0, updatedAt := 0, version := 4, domainEvents := [] }

/-- A valid aggregate used for the `updateDetails` no-op scenario. -/
def exC6Book : Book :=
  { id := "b6", title := "Dune", authorId := "a6", pageCount := 412,
    isbn := none, yearRead := some 2020, status := .FINISHED,
    rating := some 4, coverUrl := some "http://x/y.png",
    quotes := [], notes := [],
    createdAt := 0, updatedAt := 0, version := 1, domainEvents := [] }

/-- `BookCreatedEvent` payload delivered to the projection consumer. -/
def exC1Created : BookProjections.BookCreatedEventPayload :=
  { bookId := "b1", title := "Dune", authorId := "a1", pageCount := 412,
    isbn := none, yearRead := none, status := "TO_READ" }

/-- `QuoteAddedEvent` payload delivered (and redelivered) to the
projection consumer. -/
def exC1Quote : BookProjections.QuoteAddedEventPayload :=
  { bookId := "b1", quoteId := "q1", content := "Fear", page := some 8 }

/-- The read store after `onBookCreated exC1Created 0 []`. -/
def exC1Db1 : ReadDb :=
  [{ mongoId := "b1", title := "Dune", authorId := "a1",
     authorName := "Author a1", pageCount := 412, isbn := none,
     yearRead := none, status := "TO_READ", rating := none, coverUrl := none,
     quotes := [], notes := [], quotesCount := 0, notesCount := 0,
     createdAt := 0, updatedAt := 0 }]

/-- The read store after applying `onQuoteAdded exC1Quote 1` once. -/
def exC1Db2 : ReadDb :=
  [{ mongoId := "b1", title := "Dune", authorId := "a1",
     authorName := "Author a1", pageCount := 412, isbn := none,
     yearRead := none, status := "TO_READ", rating := none, coverUrl := none,
     quotes := [{ id := "q1", content := "Fear", page := some 8, createdAt := 1 }],
     notes := [], quotesCount := 1, notesCount := 0,
     createdAt := 0, updatedAt := 1 }]

/-- A never-persisted aggregate used for the double-save scenario. -/
def exC9Book : Book :=
  { id := "b9", title := "Solaris", authorId := "a2", pageCount := 204,
    isbn := none, yearRead := none, status := .TO_READ, rating := none,
    coverUrl := none, quotes := [], notes := [],
    createdAt := 0, updatedAt := 0, version := 0, domainEvents := [] }

/-- The write store after the first `save` of `exC9Book`. -/
def exC9Db1 : Db :=
  { books := [{ id := "b9", title := "Solaris", author_id := "a2",
                page_count := 204, isbn := none, year_read := none,
                status := "TO_READ", rating := none, cover_url := none,
                version := 1, created_at := 0, updated_at := 0 }],
    quotes := [], notes := [] }

/-- A stored row for `exC9Book.id` whose version (7) differs from the
in-memory aggregate's version (0): another writer has committed. -/
def exC2DbStale : Db :=
  { books := [{ id := "b9", title := "Solaris 2nd ed", author_id := "a2",
                page_count := 250, isbn := none, year_read := none,
                status := "READING", rating := none, cover_url := none,
                version := 7, created_at := 0, updated_at := 9 }],
    quotes := [], notes := [] }

/-- A stored row for `exC9Book.id` whose version matches the in-memory
aggregate's version (0). -/
def exC2DbFresh : Db :=
  { books := [{ id := "b9", title := "Solaris", author_id := "a2",
                page_count := 204, isbn := none, year_read := none,
                status := "TO_READ", rating := none, cover_url := none,
                version := 0, created_at := 0, updated_at := 0 }],
    quotes := [], notes := [] }

/-- An aggregate holding a quote and a note whose `updatedAt` (7) differs
from its `createdAt` (2). -/
def exC5Book : Book :=
  { id := "b1", title := "Dune", authorId := "a1", pageCount := 412,
    isbn := none, yearRead := none, status := .TO_READ, rating := none,
    coverUrl := none,
    quotes := [{ id := "q1", bookId := "b1", content := "Fear", page := some 8, createdAt := 1 }],
    notes := [{ id := "n1", bookId := "b1", content := "remember", chapter := none,
                createdAt := 2, updatedAt := 7 }],
    createdAt := 0, updatedAt := 3, version := 0, domainEvents := [] }

/-- The write store after saving `exC5Book` into an empty store. -/
def exC5Db1 : Db :=
  { books := [{ id := "b1", title := "Dune", author_id := "a1",
                page_count := 412, isbn := none, year_read := none,
                status := "TO_READ", rating := none, cover_url := none,
                version := 1, created_at := 0, updated_at := 3 }],
    quotes := [{ id := "q1", book_id := "b1", content := "Fear",
                 page := some 8, created_at := 1 }],
    notes := [{ id := "n1", book_id := "b1", content := "remember",
                chapter := none, created_at := 2 }] }

/-- The note of `exC5Book` as it comes back from `findById`: `updatedAt`
reset to `createdAt`. -/
def exC5NoteBack : Note :=
  { id := "n1", bookId := "b1", content := "remember", chapter := none,
    createdAt := 2, updatedAt := 2 }

/-! # Theorems -/

/-- C8: `publishAll` performs one `channel.publish` per event,
sequentially in list (emission) order; each call goes to the
`library.events` topic exchange with the event's `eventName` as the
routing key, so the relative order of any two events in the list is
preserved in the order of the publish calls. -/
theorem publishAll_sequential_in_emission_order (events : List DomainEvent) :
    RabbitMQEventPublisher.publishAllCalls events =
      events.map RabbitMQEventPublisher.publishCall ∧
    (RabbitMQEventPublisher.publishAllCalls events).map
      (fun c => c.routingKey) = events.map DomainEvent.eventName := by
  have h : ∀ l : List DomainEvent,
      RabbitMQEventPublisher.publishAllCalls l =
        l.map RabbitMQEventPublisher.publishCall := by
    intro l
    induction l with
    | nil => rfl
    | cons e rest ih =>
      simp [RabbitMQEventPublisher.publishAllCalls, ih]
  exact ⟨h events, by rw [h events, List.map_map]; rfl⟩

/-- C7: for every valid input, `Book.create` yields an aggregate with
`version = 0` before persistence and exactly one event in its outbox,
the creation event carrying the aggregate's id, title, authorId,
pageCount, isbn, yearRead and status. -/
theorem book_create_version_zero_single_event (props : CreateBookProps)
    (generatedId : String) (now : Nat) (currentYear : Int) (b : Book)
    (h : Book.create props generatedId now currentYear = .ok b) :
    b.version = 0 ∧
    b.domainEvents = [DomainEvent.bookCreated b.id b.title b.authorId
      b.pageCount b.isbn b.yearRead b.status] := by
  unfold Book.create at h
  repeat' split at h
  all_goals try simp_all
  all_goals (repeat' split at h)
  all_goals try simp_all
  all_goals subst h
  all_goals exact ⟨rfl, rfl⟩

/-- Witness for C7 at a concrete valid creation input. -/
theorem book_create_version_zero_single_event_witness :
    exC7Book.version = 0 ∧
    exC7Book.domainEvents = [DomainEvent.bookCreated exC7Book.id
      exC7Book.title exC7Book.authorId exC7Book.pageCount exC7Book.isbn
      exC7Book.yearRead exC7Book.status] :=
  book_create_version_zero_single_event exC7Props "b1" 0 2024 exC7Book rfl

/-- C10: when `yearRead` is null and the transition to FINISHED is
allowed, `changeStatus` sets `yearRead` to the current calendar year, but
the single `BookUpdatedEvent` it appends carries a change-set containing
only the `status` field — the auto-set `yearRead` appears in no emitted
event. -/
theorem changeStatus_auto_year_absent_from_event (b : Book) (now : Nat)
    (currentYear : Int) (hneq : b.status ≠ ReadingStatus.FINISHED)
    (hallow : ReadingStatusUtils.canTransition b.status .FINISHED = true)
    (hyear : b.yearRead = none) :
    Book.changeStatus b .FINISHED now currentYear =
      ({ b with status := .FINISHED, updatedAt := now,
                yearRead := some currentYear,
                domainEvents := b.domainEvents ++
                  [.bookUpdated b.id { status := some .FINISHED } now] }, none) := by
  unfold Book.changeStatus
  simp [hneq, hallow, hyear]

/-- Witness for C10 at a concrete READING aggregate without `yearRead`. -/
theorem changeStatus_auto_year_absent_from_event_witness :
    Book.changeStatus exC10Book .FINISHED 11 2026 =
      ({ exC10Book with status := .FINISHED, updatedAt := 11,
                        yearRead := some 2026,
                        domainEvents := exC10Book.domainEvents ++
                          [.bookUpdated exC10Book.id
                            { status := some .FINISHED } 11] }, none) :=
  changeStatus_auto_year_absent_from_event exC10Book 11 2026
    (by decide) (by decide) rfl

/-- C3 counterexample: `markAsFinished` performs no transition-table
check, so on an ABANDONED aggregate — although ABANDONED → FINISHED is
not an allowed transition — it succeeds without any error, mutates the
status, yearRead, rating and updatedAt fields, and appends a
`BookFinishedEvent` to the outbox. -/
theorem markAsFinished_ignores_transition_table :
    ReadingStatusUtils.canTransition .ABANDONED .FINISHED = false ∧
    Book.markAsFinished exC3Book 2024 (some 5) 9 2024 =
      ({ exC3Book with status := .FINISHED, yearRead := some 2024,
                       rating := some 5, updatedAt := 9,
                       domainEvents :=
                         [.bookFinished "b3" "a3" "Ulysses" 730 2024 (some 5) 9] },
       none) :=
  ⟨rfl, rfl⟩

/-- C3 amended: `changeStatus` to a target status not in the
allowed-transition table for the current status throws the
business-rule-violation `DomainException` (code
`INVALID_STATUS_TRANSITION`) and leaves the aggregate — version, status,
every field and the outbox — unchanged; `markAsFinished`, however,
bypasses the transition table (see the counterexample). -/
theorem changeStatus_illegal_transition_rejected (b : Book)
    (ns : ReadingStatus) (now : Nat) (currentYear : Int)
    (hneq : b.status ≠ ns)
    (hnot : ReadingStatusUtils.canTransition b.status ns = false) :
    Book.changeStatus b ns now currentYear =
      (b, some (.domainException
        ("Cannot transition from " ++ b.status.toStr ++ " to " ++ ns.toStr)
        "INVALID_STATUS_TRANSITION")) := by
  unfold Book.changeStatus
  simp [hneq, hnot]

/-- Witness for the amended C3 at the ABANDONED → FINISHED transition. -/
theorem changeStatus_illegal_transition_rejected_witness :
    Book.changeStatus exC3Book .FINISHED 9 2024 =
      (exC3Book, some (.domainException
        "Cannot transition from ABANDONED to FINISHED"
        "INVALID_STATUS_TRANSITION")) := by
  simpa using changeStatus_illegal_transition_rejected exC3Book .FINISHED
    9 2024 (by decide) (by decide)

/-- A nonempty string has positive length. -/
theorem one_le_length_of_ne_empty (s : String) (h : s ≠ "") : 1 ≤ s.length := by
  cases s with
  | mk data =>
    cases data with
    | nil => exact absurd rfl h
    | cons c cs => simp [String.length]

/-- `Title.create` on an already-normalized, in-range value is the
identity. -/
theorem title_create_self (s : String) (h1 : Title.normalize s = s)
    (h2 : s ≠ "") (h3 : s.length ≤ 500) : Title.create s = .ok s := by
  have h4 := one_le_length_of_ne_empty s h2
  unfold Title.create
  rw [if_neg h2, h1, if_neg (by omega), if_neg (by omega)]

/-- The title block of `updateDetails` detects re-submission of the
current title as a no-op. -/
theorem updTitle_current (b : Book) (ac : UpdateChanges)
    (h1 : Title.normalize b.title = b.title) (h2 : b.title ≠ "")
    (h3 : b.title.length ≤ 500) :
    updTitle (some b.title) b ac = (b, ac, none) := by
  simp only [updTitle]
  rw [title_create_self b.title h1 h2 h3]
  simp

/-- The title block of `updateDetails` on an actually changed title
mutates the field and records it in the change-set. -/
theorem updTitle_changed (b : Book) (ac : UpdateChanges) (t nt : String)
    (hT : Title.create t = .ok nt) (hne : nt ≠ b.title) :
    updTitle (some t) b ac =
      ({ b with title := nt }, { ac with title := some nt }, none) := by
  simp only [updTitle]
  rw [hT]
  simp [hne]

/-- The pageCount block of `updateDetails` detects re-submission of the
current page count as a no-op. -/
theorem updPageCount_current (b : Book) (ac : UpdateChanges)
    (h1 : 1 ≤ b.pageCount) (h2 : b.pageCount ≤ 50000) :
    updPageCount (some b.pageCount) b ac = (b, ac, none) := by
  simp only [updPageCount, PageCount.create]
  rw [if_neg (by omega), if_neg (by omega)]
  simp

/-- The yearRead block of `updateDetails` detects re-submission of the
current (in-range or null) value as a no-op. -/
theorem updYearRead_current (currentYear : Int) (b : Book) (ac : UpdateChanges)
    (h : (match b.yearRead with
          | some y => decide (1900 ≤ y) && decide (y ≤ currentYear + 1)
          | none => true) = true) :
    updYearRead currentYear (some b.yearRead) b ac = (b, ac, none) := by
  simp only [updYearRead]
  cases hy : b.yearRead with
  | none => simp
  | some y =>
    rw [hy] at h
    simp only [Bool.and_eq_true, decide_eq_true_eq] at h
    have hcond : ¬(y < 1900 ∨ y > currentYear + 1) := by omega
    simp [validateYearRead, hcond]

/-- The rating block of `updateDetails` detects re-submission of the
current (in-range or null) value as a no-op. -/
theorem updRating_current (b : Book) (ac : UpdateChanges)
    (h : (match b.rating with
          | some r => decide (1 ≤ r) && decide (r ≤ 5)
          | none => true) = true) :
    updRating (some b.rating) b ac = (b, ac, none) := by
  simp only [updRating]
  cases hr : b.rating with
  | none => simp
  | some r =>
    rw [hr] at h
    simp only [Bool.and_eq_true, decide_eq_true_eq] at h
    have hcond : ¬(r < 1 ∨ r > 5) := by omega
    simp [Rating.create, hcond, Except.map]

/-- The coverUrl block of `updateDetails` detects re-submission of the
current (trimmed non-empty or null) value as a no-op. -/
theorem updCoverUrl_current (b : Book) (ac : UpdateChanges)
    (h : (match b.coverUrl with
          | some c => decide (trimString c = c) && decide (c ≠ "")
          | none => true) = true) :
    updCoverUrl (some b.coverUrl) b ac = (b, ac, none) := by
  simp only [updCoverUrl]
  cases hc : b.coverUrl with
  | none => simp
  | some c =>
    rw [hc] at h
    simp only [Bool.and_eq_true, decide_eq_true_eq] at h
    simp [h.1, h.2]

/-- C6: `updateDetails` detects no-ops per field: re-submitting every
field's current value emits zero events and leaves the aggregate —
including `version` and `updatedAt` — entirely unchanged; and a call
mixing one actually changed field (the title) with current values for all
other fields emits exactly one `BookUpdatedEvent` whose sparse change-set
contains only the changed field. -/
theorem updateDetails_field_level_noop_detection (b : Book) (now : Nat)
    (currentYear : Int) (hv : ValidBook currentYear b = true)
    (t nt : String) (hT : Title.create t = .ok nt) (hne : nt ≠ b.title) :
    Book.updateDetails b
      { title := some b.title, pageCount := some b.pageCount,
        yearRead := some b.yearRead, rating := some b.rating,
        coverUrl := some b.coverUrl } now currentYear = (b, none) ∧
    Book.updateDetails b
      { title := some t, pageCount := some b.pageCount,
        yearRead := some b.yearRead, rating := some b.rating,
        coverUrl := some b.coverUrl } now currentYear =
      ({ b with title := nt, updatedAt := now,
                domainEvents := b.domainEvents ++
                  [.bookUpdated b.id { title := some nt } now] }, none) := by
  unfold ValidBook at hv
  simp only [Bool.and_eq_true, decide_eq_true_eq, and_assoc] at hv
  obtain ⟨h1, h2, h3, h4, h5, h6, h7, h8⟩ := hv
  constructor
  · unfold Book.updateDetails
    simp only [updChain, updTitle_current b {} h1 h2 h3,
      updPageCount_current b {} h4 h5,
      updYearRead_current currentYear b {} h6,
      updRating_current b {} h7,
      updCoverUrl_current b {} h8,
      UpdateChanges.isEmpty]
    simp
  · unfold Book.updateDetails
    simp only [updChain, updTitle_changed b {} t nt hT hne,
      updPageCount_current { b with title := nt } { title := some nt } h4 h5,
      updYearRead_current currentYear { b with title := nt } { title := some nt } h6,
      updRating_current { b with title := nt } { title := some nt } h7,
      updCoverUrl_current { b with title := nt } { title := some nt } h8,
      UpdateChanges.isEmpty]
    simp

/-- Witness for C6: re-submitting every current field of a concrete valid
aggregate is a silent no-op, while changing only the title emits one
sparse `BookUpdatedEvent`. -/
theorem updateDetails_field_level_noop_detection_witness :
    Book.updateDetails exC6Book
      { title := some exC6Book.title, pageCount := some exC6Book.pageCount,
        yearRead := some exC6Book.yearRead, rating := some exC6Book.rating,
        coverUrl := some exC6Book.coverUrl } 5 2024 = (exC6Book, none) ∧
    Book.updateDetails exC6Book
      { title := some "New  Title", pageCount := some exC6Book.pageCount,
        yearRead := some exC6Book.yearRead, rating := some exC6Book.rating,
        coverUrl := some exC6Book.coverUrl } 5 2024 =
      ({ exC6Book with title := "New Title", updatedAt := 5,
                       domainEvents := exC6Book.domainEvents ++
                         [.bookUpdated exC6Book.id
                           { title := some "New Title" } 5] }, none) :=
  updateDetails_field_level_noop_detection exC6Book 5 2024 (by decide)
    "New  Title" "New Title" (by rfl) (by decide)

/-- `syncQuotes` only touches the quotes table. -/
theorem syncQuotes_books (db : Db) (b : Book) :
    (PostgresBookRepository.syncQuotes db b).books = db.books := rfl

/-- `syncNotes` only touches the notes table. -/
theorem syncNotes_books (db : Db) (b : Book) :
    (PostgresBookRepository.syncNotes db b).books = db.books := rfl

/-- Elimination for a successful conditional `UPDATE`: the version
predicate matched some row, and every matched row was overwritten with
the aggregate's fields at `version + 1`. -/
theorem update_eq_ok (db : Db) (b : Book) (dbU : Db)
    (h : PostgresBookRepository.update db b = .ok dbU) :
    db.books.any (fun r => r.id = b.id && r.version = b.version) = true ∧
    dbU = { db with books := db.books.map (fun r =>
      if r.id = b.id && r.version = b.version then
        { r with title := b.title, page_count := b.pageCount, isbn := b.isbn,
                 year_read := b.yearRead, status := b.status.toStr,
                 rating := b.rating, cover_url := b.coverUrl,
                 version := r.version + 1, updated_at := b.updatedAt }
      else r) } := by
  unfold PostgresBookRepository.update at h
  split at h
  next hcond =>
    refine ⟨by simpa using hcond, ?_⟩
    injection h with h
    exact h.symm
  next => cases h

/-- A conditional `UPDATE` matching zero rows throws the optimistic
concurrency conflict error. -/
theorem update_eq_error (db : Db) (b : Book)
    (h : db.books.any (fun r => r.id = b.id && r.version = b.version) = false) :
    PostgresBookRepository.update db b =
      .error (.jsError "Optimistic concurrency conflict for Book") := by
  unfold PostgresBookRepository.update
  rw [if_neg (by simp [h])]

/-- Elimination for a successful `save`: the transaction body committed,
i.e. the insert-or-update succeeded and the children were synchronized. -/
theorem save_ok_elim (db db1 : Db) (b : Book)
    (h : PostgresBookRepository.save db b = (db1, none)) :
    ∃ dbB, (if db.books.any (fun r => r.id = b.id)
            then PostgresBookRepository.update db b
            else .ok (PostgresBookRepository.insert db b)) = .ok dbB ∧
      db1 = PostgresBookRepository.syncNotes
              (PostgresBookRepository.syncQuotes dbB b) b := by
  have hTx : PostgresBookRepository.saveTx db b = .ok db1 := by
    unfold PostgresBookRepository.save at h
    split at h
    next d heq =>
      injection h with h2 h3
      rw [← h2]
      exact heq
    next e heq => simp at h
  unfold PostgresBookRepository.saveTx at hTx
  split at hTx
  next => simp at hTx
  next dbB hB =>
    injection hTx with h1
    exact ⟨dbB, hB, h1.symm⟩

/-- C9: a successful `save` never calls `incrementVersion` on the
in-memory aggregate (the row is written at `version + 1` but the
aggregate object keeps its old version), so saving the same aggregate
instance a second time without reloading it via `findById` hits the
conditional `WHERE version = <aggregate.version>` with a stale version
and fails with the optimistic-concurrency-conflict error even though no
other writer intervened; the rolled-back store is returned unchanged. -/
theorem save_again_without_reload_conflicts (db db1 : Db) (b : Book)
    (h : PostgresBookRepository.save db b = (db1, none)) :
    PostgresBookRepository.save db1 b =
      (db1, some (.jsError "Optimistic concurrency conflict for Book")) := by
  obtain ⟨dbB, hB, hdb1⟩ := save_ok_elim db db1 b h
  have hbooks1 : db1.books = dbB.books := by
    rw [hdb1, syncNotes_books, syncQuotes_books]
  have hex1 : db1.books.any (fun r => r.id = b.id) = true ∧
      db1.books.any (fun r => r.id = b.id && r.version = b.version) = false := by
    rw [hbooks1]
    by_cases hex : db.books.any (fun r => r.id = b.id) = true
    · -- update path
      rw [if_pos hex] at hB
      obtain ⟨hhit, hU⟩ := update_eq_ok db b dbB hB
      subst hU
      constructor
      · simp only [List.any_map, List.any_eq_true, Function.comp] at hex ⊢
        obtain ⟨r, hr, hid⟩ := hex
        refine ⟨r, hr, ?_⟩
        split <;> simpa using hid
      · simp only [List.any_map, List.any_eq_false, Function.comp]
        intro r hr
        split
        next hhitr =>
          simp only [Bool.and_eq_true, decide_eq_true_eq] at hhitr
          simp only [Bool.and_eq_true, decide_eq_true_eq, not_and]
          intro _
          omega
        next hhitr => exact hhitr
    · -- insert path
      rw [if_neg hex] at hB
      injection hB with hB
      subst hB
      simp only [Bool.not_eq_true] at hex
      unfold PostgresBookRepository.insert
      constructor
      · simp
      · simp only [List.any_append, List.any_eq_false, Bool.or_eq_false_iff]
        refine ⟨?_, by simp⟩
        intro r hr
        simp only [Bool.and_eq_true, decide_eq_true_eq, not_and]
        intro hid
        exfalso
        have : db.books.any (fun r => r.id = b.id) = true := by
          simp only [List.any_eq_true]
          exact ⟨r, hr, by simpa using hid⟩
        rw [this] at hex
        cases hex
  unfold PostgresBookRepository.save PostgresBookRepository.saveTx
  rw [if_pos hex1.1, update_eq_error db1 b hex1.2]

/-- Witness for C9: saving a fresh aggregate and then saving the same
in-memory instance again (without reloading) yields the conflict error. -/
theorem save_again_without_reload_conflicts_witness :
    PostgresBookRepository.save exC9Db1 exC9Book =
      (exC9Db1, some (.jsError "Optimistic concurrency conflict for Book")) :=
  save_again_without_reload_conflicts ⟨[], [], []⟩ exC9Db1 exC9Book (by rfl)

/-- C2: for an aggregate whose row exists in the write store, `save`
against a stored version differing from the in-memory version fails with
the distinct optimistic-concurrency-conflict error — not swallowed and
not retried — and the rolled-back transaction leaves the store (aggregate
row and all child rows) exactly unchanged; when the stored version
matches, `save` succeeds and persists exactly the caller's fields with
the row version incremented by 1. -/
theorem save_version_check_conflict_or_commit (b : Book) (dbA dbB : Db)
    (hexA : dbA.books.any (fun r => r.id = b.id) = true)
    (hmissA : dbA.books.any (fun r => r.id = b.id && r.version = b.version) = false)
    (hmatchB : dbB.books.any (fun r => r.id = b.id && r.version = b.version) = true) :
    PostgresBookRepository.save dbA b =
      (dbA, some (.jsError "Optimistic concurrency conflict for Book")) ∧
    (PostgresBookRepository.save dbB b).2 = none ∧
    (PostgresBookRepository.save dbB b).1.books = dbB.books.map (fun r =>
      if r.id = b.id && r.version = b.version then
        { r with title := b.title, page_count := b.pageCount, isbn := b.isbn,
                 year_read := b.yearRead, status := b.status.toStr,
                 rating := b.rating, cover_url := b.coverUrl,
                 version := r.version + 1, updated_at := b.updatedAt }
      else r) := by
  have hexB : dbB.books.any (fun r => r.id = b.id) = true := by
    simp only [List.any_eq_true] at hmatchB ⊢
    obtain ⟨r, hr, hp⟩ := hmatchB
    simp only [Bool.and_eq_true] at hp
    exact ⟨r, hr, hp.1⟩
  have hupd : PostgresBookRepository.update dbB b =
      .ok { dbB with books := dbB.books.map (fun r =>
        if r.id = b.id && r.version = b.version then
          { r with title := b.title, page_count := b.pageCount, isbn := b.isbn,
                   year_read := b.yearRead, status := b.status.toStr,
                   rating := b.rating, cover_url := b.coverUrl,
                   version := r.version + 1, updated_at := b.updatedAt }
        else r) } := by
    unfold PostgresBookRepository.update
    rw [if_pos hmatchB]
  have hsB : PostgresBookRepository.save dbB b =
      (PostgresBookRepository.syncNotes (PostgresBookRepository.syncQuotes
        { dbB with books := dbB.books.map (fun r =>
          if r.id = b.id && r.version = b.version then
            { r with title := b.title, page_count := b.pageCount, isbn := b.isbn,
                     year_read := b.yearRead, status := b.status.toStr,
                     rating := b.rating, cover_url := b.coverUrl,
                     version := r.version + 1, updated_at := b.updatedAt }
          else r) } b) b, none) := by
    unfold PostgresBookRepository.save PostgresBookRepository.saveTx
    rw [if_pos hexB, hupd]
  refine ⟨?_, ?_, ?_⟩
  · unfold PostgresBookRepository.save PostgresBookRepository.saveTx
    rw [if_pos hexA, update_eq_error dbA b hmissA]
  · rw [hsB]
  · rw [hsB, syncNotes_books, syncQuotes_books]

/-- Witness for C2: a stale row (version 7 against in-memory version 0)
yields the conflict with the store unchanged; a matching row (version 0)
commits the caller's fields at version 1. -/
theorem save_version_check_conflict_or_commit_witness :
    PostgresBookRepository.save exC2DbStale exC9Book =
      (exC2DbStale, some (.jsError "Optimistic concurrency conflict for Book")) ∧
    (PostgresBookRepository.save exC2DbFresh exC9Book).2 = none ∧
    (PostgresBookRepository.save exC2DbFresh exC9Book).1.books =
      exC2DbFresh.books.map (fun r =>
        if r.id = exC9Book.id && r.version = exC9Book.version then
          { r with title := exC9Book.title, page_count := exC9Book.pageCount,
                   isbn := exC9Book.isbn, year_read := exC9Book.yearRead,
                   status := exC9Book.status.toStr, rating := exC9Book.rating,
                   cover_url := exC9Book.coverUrl, version := r.version + 1,
                   updated_at := exC9Book.updatedAt }
        else r) :=
  save_version_check_conflict_or_commit exC9Book exC2DbStale exC2DbFresh
    (by rfl) (by rfl) (by rfl)

/-- Every call made by `publishAll` is a publish call. -/
theorem runPublishAll_publishes_only (pubOk : DomainEvent → Bool)
    (evs : List DomainEvent) :
    ∀ a ∈ (runPublishAll pubOk evs).1, ∃ e, a = Action.publish e := by
  induction evs with
  | nil => intro a ha; simp [runPublishAll] at ha
  | cons e rest ih =>
    intro a ha
    unfold runPublishAll at ha
    split at ha
    · rcases List.mem_cons.mp ha with rfl | ha2
      · exact ⟨e, rfl⟩
      · exact ih a ha2
    · rcases List.mem_cons.mp ha with rfl | ha2
      · exact ⟨e, rfl⟩
      · simp at ha2

/-- When every publish succeeded, `publishAll` published exactly the
whole event list in order. -/
theorem runPublishAll_complete (pubOk : DomainEvent → Bool)
    (evs : List DomainEvent) (h : (runPublishAll pubOk evs).2 = true) :
    (runPublishAll pubOk evs).1 = evs.map Action.publish := by
  induction evs with
  | nil => rfl
  | cons e rest ih =>
    unfold runPublishAll at h ⊢
    by_cases hp : pubOk e = true
    · rw [if_pos hp] at h ⊢
      simp only [List.map_cons]
      exact congrArg (fun l => Action.publish e :: l) (ih h)
    · rw [if_neg hp] at h
      simp at h

/-- The empty trace trivially satisfies the discipline. -/
theorem persistBeforePublish_nil (so : Option DomainError) :
    PersistBeforePublish [] so := by
  unfold PersistBeforePublish
  refine ⟨fun e _ => ⟨rfl, by simp⟩, fun h => absurd rfl h, fun h => by simp at h⟩

/-- The trace of a save-only call satisfies the discipline. -/
theorem persistBeforePublish_saveOnly (so : Option DomainError) :
    PersistBeforePublish [Action.saveCall] so := by
  unfold PersistBeforePublish
  refine ⟨fun e _ => ⟨rfl, by simp⟩, fun _ => rfl, fun h => by simp at h⟩

/-- The shared persist-publish-clear tail of every write handler obeys
the discipline for every save outcome and publish oracle. -/
theorem persistAndPublish_ordered (so : Option DomainError)
    (pubOk : DomainEvent → Bool) (g : Bool) (b : Book) :
    PersistBeforePublish (runPersistAndPublish so pubOk g b).1 so := by
  unfold runPersistAndPublish
  cases so with
  | some e => exact persistBeforePublish_saveOnly (some e)
  | none =>
    by_cases hg : (g && !b.hasUncommittedEvents) = true
    · rw [if_pos hg]
      exact persistBeforePublish_saveOnly none
    · rw [if_neg hg]
      by_cases hr2 : (runPublishAll pubOk b.domainEvents).2 = true
      · rw [if_pos hr2]
        unfold PersistBeforePublish
        refine ⟨?_, ?_, ?_⟩
        · intro e h
          cases h
        · intro _
          rfl
        · intro _
          exact ⟨b.domainEvents, by rw [runPublishAll_complete pubOk _ hr2]⟩
      · rw [if_neg hr2]
        unfold PersistBeforePublish
        refine ⟨?_, ?_, ?_⟩
        · intro e h
          cases h
        · intro _
          rfl
        · intro hmem
          rcases List.mem_cons.mp hmem with hc | hc
          · cases hc
          · obtain ⟨e, he⟩ := runPublishAll_publishes_only pubOk b.domainEvents _ hc
            cases he

/-- C4: in every command handler (create, update, mark-finished,
add-quote), events are handed to the publisher only after `save` has
completed successfully — a thrown `save` publishes nothing and leaves the
outbox uncleared — and `clearDomainEvents` is invoked only as the very
last step, after `publishAll` has completed on the whole event list. -/
theorem handlers_persist_before_publish_clear_after
    (so : Option DomainError) (pubOk : DomainEvent → Bool)
    (props : CreateBookProps) (generatedId : String)
    (book : Book) (changes : UpdateDetailsArg) (yearRead : Int)
    (rating : Option Int) (content : String) (page : Option Int)
    (quoteId : String) (now : Nat) (currentYear : Int) :
    PersistBeforePublish
      (runCreateBookHandler so pubOk props generatedId now currentYear).1 so ∧
    PersistBeforePublish
      (runUpdateBookHandler so pubOk book changes now currentYear).1 so ∧
    PersistBeforePublish
      (runMarkBookAsFinishedHandler so pubOk book yearRead rating now currentYear).1 so ∧
    PersistBeforePublish
      (runAddQuoteHandler so pubOk book content page now quoteId).1 so := by
  refine ⟨?_, ?_, ?_, ?_⟩
  · unfold runCreateBookHandler
    split
    · exact persistBeforePublish_nil so
    · exact persistAndPublish_ordered so pubOk false _
  · unfold runUpdateBookHandler
    split
    · exact persistBeforePublish_nil so
    · exact persistAndPublish_ordered so pubOk true _
  · unfold runMarkBookAsFinishedHandler
    split
    · exact persistBeforePublish_nil so
    · exact persistAndPublish_ordered so pubOk false _
  · unfold runAddQuoteHandler
    split
    · exact persistBeforePublish_nil so
    · exact persistAndPublish_ordered so pubOk false _

/-- Witness for C4: with a concrete failing `save`, the create handler
publishes nothing and never clears the outbox. -/
theorem handlers_persist_before_publish_clear_after_witness :
    publishedIn (runCreateBookHandler (some (.jsError "db down"))
      (fun _ => true) exC7Props "b1" 0 2024).1 = [] ∧
    Action.clearEvents ∉ (runCreateBookHandler (some (.jsError "db down"))
      (fun _ => true) exC7Props "b1" 0 2024).1 :=
  (handlers_persist_before_publish_clear_after (some (.jsError "db down"))
    (fun _ => true) exC7Props "b1" exC7Book {} 2024 none "q" none "q1" 0
    2024).1.1 (.jsError "db down") rfl

/-- `syncNotes` only touches the notes table (quotes preserved). -/
theorem syncNotes_quotes (db : Db) (b : Book) :
    (PostgresBookRepository.syncNotes db b).quotes = db.quotes := rfl

/-- `syncQuotes` only touches the quotes table (notes preserved). -/
theorem syncQuotes_notes (db : Db) (b : Book) :
    (PostgresBookRepository.syncQuotes db b).notes = db.notes := rfl

/-- `find?` skips a prefix containing no match. -/
theorem find?_append_none {α : Type} (p : α → Bool) (l1 l2 : List α)
    (h : l1.find? p = none) : (l1 ++ l2).find? p = l2.find? p := by
  induction l1 with
  | nil => rfl
  | cons x rest ih =>
    rw [List.find?_cons] at h
    rw [List.cons_append, List.find?_cons]
    cases hx : p x with
    | true => rw [hx] at h; exact Option.noConfusion h
    | false => rw [hx] at h; exact ih h

/-- `find?` commutes with a map that preserves the predicate. -/
theorem find?_map_pres {α : Type} (p : α → Bool) (f : α → α) (l : List α)
    (hpf : ∀ x, p (f x) = p x) : (l.map f).find? p = (l.find? p).map f := by
  induction l with
  | nil => rfl
  | cons x rest ih =>
    rw [List.map_cons, List.find?_cons, List.find?_cons, hpf x]
    cases hx : p x with
    | true => rfl
    | false => exact ih

/-- In a table whose rows have pairwise distinct primary keys, two member
rows with the same key coincide. -/
theorem mem_same_id_unique {l : List BookRow}
    (h : l.Pairwise (fun r s => r.id ≠ s.id)) {r1 r2 : BookRow}
    (h1 : r1 ∈ l) (h2 : r2 ∈ l) (hid : r1.id = r2.id) : r1 = r2 := by
  induction l with
  | nil => cases h1
  | cons x rest ih =>
    rw [List.pairwise_cons] at h
    rcases List.mem_cons.mp h1 with rfl | h1m
    · rcases List.mem_cons.mp h2 with rfl | h2m
      · rfl
      · exact absurd hid (h.1 r2 h2m)
    · rcases List.mem_cons.mp h2 with rfl | h2m
      · exact absurd hid.symm (h.1 r1 h1m)
      · exact ih h.2 h1m h2m

/-- `ORDER BY created_at` on rows with strictly increasing keys is the
identity. -/
theorem sortByKey_of_sorted {α : Type} (key : α → Nat) (l : List α)
    (h : l.Pairwise (fun a c => key a < key c)) :
    PostgresBookRepository.sortByKey key l = l := by
  induction l with
  | nil => rfl
  | cons x rest ih =>
    rw [List.pairwise_cons] at h
    unfold PostgresBookRepository.sortByKey
    rw [ih h.2]
    cases rest with
    | nil => rfl
    | cons y t =>
      unfold PostgresBookRepository.insertByKey
      rw [if_pos (h.1 y (by simp))]

/-- `ReadingStatusUtils.fromString` inverts the enum's string value. -/
theorem status_fromString_toStr (s : ReadingStatus) :
    ReadingStatusUtils.fromString s.toStr = .ok s := by
  cases s <;> rfl

/-- The quote row written by `syncQuotes` for a quote of book `b`. -/
def quoteToRow (b : Book) (q : Quote) : QuoteRow :=
  { id := q.id, book_id := b.id, content := q.content,
    page := q.page, created_at := q.createdAt }

/-- The note row written by `syncNotes` for a note of book `b`. -/
def noteToRow (b : Book) (n : Note) : NoteRow :=
  { id := n.id, book_id := b.id, content := n.content,
    chapter := n.chapter, created_at := n.createdAt }

/-- `syncQuotes` on a store with no quote rows for this book appends
exactly the aggregate's quotes as rows, preserving their order and
`createdAt`. -/
theorem syncQuotes_fresh (db : Db) (b : Book)
    (hfresh : db.quotes.filter (fun r => r.book_id = b.id) = []) :
    (PostgresBookRepository.syncQuotes db b).quotes =
      db.quotes ++ b.quotes.map (quoteToRow b) := by
  unfold PostgresBookRepository.syncQuotes
  rw [hfresh]
  simp only [List.map_nil, List.filter_nil]
  have hdel : db.quotes.filter (fun r => !(([] : List String).contains r.id)) =
      db.quotes := by
    simp
  rw [hdel]
  have hfold : ∀ (qs : List Quote) (init : List QuoteRow),
      qs.foldl (fun rows q =>
        if ([] : List String).contains q.id then
          rows.map (fun r =>
            if r.id = q.id then { r with content := q.content, page := q.page } else r)
        else rows ++ [{ id := q.id, book_id := b.id, content := q.content,
                        page := q.page, created_at := q.createdAt }]) init =
      init ++ qs.map (quoteToRow b) := by
    intro qs
    induction qs with
    | nil => intro init; simp
    | cons q rest ih =>
      intro init
      rw [List.foldl_cons, if_neg (by simp), ih, List.map_cons]
      simp [quoteToRow]
  rw [hfold]

/-- `syncNotes` on a store with no note rows for this book appends
exactly the aggregate's notes as rows. -/
theorem syncNotes_fresh (db : Db) (b : Book)
    (hfresh : db.notes.filter (fun r => r.book_id = b.id) = []) :
    (PostgresBookRepository.syncNotes db b).notes =
      db.notes ++ b.notes.map (noteToRow b) := by
  unfold PostgresBookRepository.syncNotes
  rw [hfresh]
  simp only [List.map_nil, List.filter_nil]
  have hdel : db.notes.filter (fun r => !(([] : List String).contains r.id)) =
      db.notes := by
    simp
  rw [hdel]
  have hfold : ∀ (ns : List Note) (init : List NoteRow),
      ns.foldl (fun rows n =>
        if ([] : List String).contains n.id then
          rows.map (fun r =>
            if r.id = n.id then { r with content := n.content, chapter := n.chapter } else r)
        else rows ++ [{ id := n.id, book_id := b.id, content := n.content,
                        chapter := n.chapter, created_at := n.createdAt }]) init =
      init ++ ns.map (noteToRow b) := by
    intro ns
    induction ns with
    | nil => intro init; simp
    | cons n rest ih =>
      intro init
      rw [List.foldl_cons, if_neg (by simp), ih, List.map_cons]
      simp [noteToRow]
  rw [hfold]

/-- Rows written for book `b` all carry its `book_id`. -/
theorem filter_quoteRows (b : Book) (qs : List Quote) :
    (qs.map (quoteToRow b)).filter (fun r => r.book_id = b.id) =
      qs.map (quoteToRow b) := by
  induction qs with
  | nil => rfl
  | cons q rest ih => simp [quoteToRow, List.filter_cons, ih]

/-- Note rows written for book `b` all carry its `book_id`. -/
theorem filter_noteRows (b : Book) (ns : List Note) :
    (ns.map (noteToRow b)).filter (fun r => r.book_id = b.id) =
      ns.map (noteToRow b) := by
  induction ns with
  | nil => rfl
  | cons n rest ih => simp [noteToRow, List.filter_cons, ih]

/-- Reconstituting the written quote rows yields the original quotes. -/
theorem quoteRows_roundtrip (b : Book) (qs : List Quote)
    (hown : ∀ q ∈ qs, q.bookId = b.id) :
    (qs.map (quoteToRow b)).map (fun r =>
      ({ id := r.id, bookId := r.book_id, content := r.content,
         page := r.page, createdAt := r.created_at } : Quote)) = qs := by
  induction qs with
  | nil => rfl
  | cons q rest ih =>
    rw [List.map_cons, List.map_cons,
      ih (fun x hx => hown x (List.mem_cons_of_mem q hx))]
    have hq : q.bookId = b.id := hown q (by simp)
    simp [quoteToRow, ← hq]

/-- Reconstituting the written note rows yields the original notes except
that `updatedAt` is reset to `createdAt` (no `updated_at` column). -/
theorem noteRows_roundtrip (b : Book) (ns : List Note)
    (hown : ∀ n ∈ ns, n.bookId = b.id) :
    (ns.map (noteToRow b)).map (fun r =>
      ({ id := r.id, bookId := r.book_id, content := r.content,
         chapter := r.chapter, createdAt := r.created_at,
         updatedAt := r.created_at } : Note)) =
      ns.map (fun n => { n with updatedAt := n.createdAt }) := by
  induction ns with
  | nil => rfl
  | cons n rest ih =>
    rw [List.map_cons, List.map_cons, List.map_cons,
      ih (fun x hx => hown x (List.mem_cons_of_mem n hx))]
    have hn : n.bookId = b.id := hown n (by simp)
    simp [noteToRow, ← hn]

/-- In a table with pairwise distinct ids, `find?` by id returns the
member row carrying that id. -/
theorem find?_of_mem_unique {l : List BookRow}
    (hids : l.Pairwise (fun r s => r.id ≠ s.id)) {rh : BookRow}
    (hmem : rh ∈ l) (bid : String) (hid : rh.id = bid) :
    l.find? (fun r => r.id = bid) = some rh := by
  induction l with
  | nil => cases hmem
  | cons x rest ih =>
    rw [List.pairwise_cons] at hids
    rcases List.mem_cons.mp hmem with rfl | hm
    · have htrue : decide (rh.id = bid) = true := by simp [hid]
      rw [List.find?_cons, htrue]
    · have hxne : x.id ≠ bid := fun hx => (hids.1 rh hm) (by rw [hx, hid])
      have hfalse : decide (x.id = bid) = false := by simp [hxne]
      rw [List.find?_cons, hfalse]
      exact ih hids.2 hm

/-- `find?` by id on the books table after `insert` finds the freshly
inserted row at `version + 1`. -/
theorem find?_insert_books (db : Db) (b : Book)
    (hnone : db.books.find? (fun r => r.id = b.id) = none) :
    (PostgresBookRepository.insert db b).books.find? (fun r => r.id = b.id) =
      some { id := b.id, title := b.title, author_id := b.authorId,
             page_count := b.pageCount, isbn := b.isbn,
             year_read := b.yearRead, status := b.status.toStr,
             rating := b.rating, cover_url := b.coverUrl,
             version := b.version + 1, created_at := b.createdAt,
             updated_at := b.updatedAt } := by
  unfold PostgresBookRepository.insert
  rw [find?_append_none _ _ _ hnone, List.find?_cons]
  simp

/-- `find?` by id on the books table after the conditional `UPDATE` finds
the overwritten row of the matched stored row, at its `version + 1`. -/
theorem find?_update_books (db : Db) (b : Book) {rh : BookRow}
    (hids : db.books.Pairwise (fun r s => r.id ≠ s.id))
    (hrhmem : rh ∈ db.books) (hid : rh.id = b.id)
    (hver : rh.version = b.version) :
    (db.books.map (fun r =>
      if r.id = b.id && r.version = b.version then
        { r with title := b.title, page_count := b.pageCount, isbn := b.isbn,
                 year_read := b.yearRead, status := b.status.toStr,
                 rating := b.rating, cover_url := b.coverUrl,
                 version := r.version + 1, updated_at := b.updatedAt }
      else r)).find? (fun r => r.id = b.id) =
      some { rh with title := b.title, page_count := b.pageCount,
                     isbn := b.isbn, year_read := b.yearRead,
                     status := b.status.toStr, rating := b.rating,
                     cover_url := b.coverUrl, version := rh.version + 1,
                     updated_at := b.updatedAt } := by
  have hpf : ∀ x : BookRow,
      (fun r : BookRow => decide (r.id = b.id)) ((fun r : BookRow =>
        if r.id = b.id && r.version = b.version then
          { r with title := b.title, page_count := b.pageCount,
                   isbn := b.isbn, year_read := b.yearRead,
                   status := b.status.toStr, rating := b.rating,
                   cover_url := b.coverUrl, version := r.version + 1,
                   updated_at := b.updatedAt }
        else r) x) = (fun r : BookRow => decide (r.id = b.id)) x := by
    intro x
    simp only
    split <;> rfl
  rw [find?_map_pres _ _ _ hpf, find?_of_mem_unique hids hrhmem b.id hid]
  simp only [Option.map_some']
  rw [if_pos (by simp [hid, hver])]

/-- Evaluation of `Book.reconstitute` when the status string parses. -/
theorem reconstitute_eval (p : ReconstituteProps) (st : ReadingStatus)
    (hst : ReadingStatusUtils.fromString p.status = .ok st) :
    Book.reconstitute p = .ok
      { id := p.id, title := p.title, authorId := p.authorId,
        pageCount := p.pageCount, isbn := p.isbn, yearRead := p.yearRead,
        status := st, rating := p.rating, coverUrl := p.coverUrl,
        quotes := p.quotes, notes := p.notes, createdAt := p.createdAt,
        updatedAt := p.updatedAt, version := p.version,
        domainEvents := [] } := by
  unfold Book.reconstitute
  rw [hst]

/-- Evaluation of `findById` when the book row is found and its status
string parses. -/
theorem findById_eval (db : Db) (bookId : String) (row : BookRow)
    (hfind : db.books.find? (fun r => r.id = bookId) = some row)
    (st : ReadingStatus)
    (hst : ReadingStatusUtils.fromString row.status = .ok st) :
    PostgresBookRepository.findById db bookId = .ok (some
      { id := row.id, title := row.title, authorId := row.author_id,
        pageCount := row.page_count, isbn := row.isbn,
        yearRead := row.year_read, status := st, rating := row.rating,
        coverUrl := row.cover_url,
        quotes := (PostgresBookRepository.sortByKey (·.created_at)
          (db.quotes.filter (fun r => r.book_id = bookId))).map (fun r =>
            ({ id := r.id, bookId := r.book_id, content := r.content,
               page := r.page, createdAt := r.created_at } : Quote)),
        notes := (PostgresBookRepository.sortByKey (·.created_at)
          (db.notes.filter (fun r => r.book_id = bookId))).map (fun r =>
            ({ id := r.id, bookId := r.book_id, content := r.content,
               chapter := r.chapter, createdAt := r.created_at,
               updatedAt := r.created_at } : Note)),
        createdAt := row.created_at, updatedAt := row.updated_at,
        version := row.version, domainEvents := [] }) := by
  unfold PostgresBookRepository.findById
  split
  next heq => rw [hfind] at heq; cases heq
  next row2 heq =>
    rw [hfind] at heq
    injection heq with heq
    subst heq
    unfold Book.reconstitute
    simp [hst, Except.map]

/-- C5 counterexample: the notes table has no `updated_at` column, so
`save` followed immediately by `findById` does not return a note-for-note
identical aggregate — a note saved with `updatedAt = 7` (and
`createdAt = 2`) is reconstructed with `updatedAt = 2`. -/
theorem save_findById_loses_note_updatedAt :
    PostgresBookRepository.save ⟨[], [], []⟩ exC5Book = (exC5Db1, none) ∧
    PostgresBookRepository.findById exC5Db1 exC5Book.id = .ok (some
      { exC5Book with version := 1, notes := [exC5NoteBack] }) ∧
    exC5Book.notes.map (fun n => n.updatedAt) = [7] ∧
    ¬ ∃ b1, PostgresBookRepository.findById exC5Db1 exC5Book.id =
        .ok (some b1) ∧ b1.notes = exC5Book.notes := by
  refine ⟨rfl, rfl, rfl, ?_⟩
  rintro ⟨b1, hb1, hnotes⟩
  have hknown : PostgresBookRepository.findById exC5Db1 exC5Book.id =
      .ok (some { exC5Book with version := 1, notes := [exC5NoteBack] }) := rfl
  rw [hknown] at hb1
  injection hb1 with hb1
  injection hb1 with hb1
  subst hb1
  exact absurd hnotes (by decide)

/-- C5 (amended): for every aggregate whose child entities are new to the
store (and under the store invariants: unique row ids, the stored row's
`author_id` matching the aggregate, children owned by the aggregate with
strictly increasing `createdAt`), `save` followed immediately by
`findById` returns a reconstructed aggregate whose observable state —
title, authorId, pageCount, isbn, yearRead, status, rating, coverUrl and
the quotes with all their fields and timestamps — is identical to the
saved aggregate's, with `version` exactly one greater than the pre-save
value and an empty uncommitted-event outbox; the notes come back
field-identical except `updatedAt`, which is reset to `createdAt` because
the notes table has no `updated_at` column. -/
theorem save_findById_round_trip (db db1 : Db) (b : Book)
    (hsave : PostgresBookRepository.save db b = (db1, none))
    (hids : db.books.Pairwise (fun r s => r.id ≠ s.id))
    (hauthor : ∀ r ∈ db.books, r.id = b.id → r.author_id = b.authorId)
    (hqfresh : db.quotes.filter (fun r => r.book_id = b.id) = [])
    (hnfresh : db.notes.filter (fun r => r.book_id = b.id) = [])
    (hqown : ∀ q ∈ b.quotes, q.bookId = b.id)
    (hnown : ∀ n ∈ b.notes, n.bookId = b.id)
    (hqsort : b.quotes.Pairwise (fun q1 q2 => q1.createdAt < q2.createdAt))
    (hnsort : b.notes.Pairwise (fun n1 n2 => n1.createdAt < n2.createdAt)) :
    ∃ b1, PostgresBookRepository.findById db1 b.id = .ok (some b1) ∧
      b1.title = b.title ∧ b1.authorId = b.authorId ∧
      b1.pageCount = b.pageCount ∧ b1.isbn = b.isbn ∧
      b1.yearRead = b.yearRead ∧ b1.status = b.status ∧
      b1.rating = b.rating ∧ b1.coverUrl = b.coverUrl ∧
      b1.quotes = b.quotes ∧
      b1.notes = b.notes.map (fun n => { n with updatedAt := n.createdAt }) ∧
      b1.version = b.version + 1 ∧
      b1.domainEvents = [] := by
  obtain ⟨dbB, hB, hdb1⟩ := save_ok_elim db db1 b hsave
  have hrow : dbB.quotes = db.quotes ∧ dbB.notes = db.notes ∧
      ∃ row, dbB.books.find? (fun r => r.id = b.id) = some row ∧
        row.title = b.title ∧ row.author_id = b.authorId ∧
        row.page_count = b.pageCount ∧ row.isbn = b.isbn ∧
        row.year_read = b.yearRead ∧ row.status = b.status.toStr ∧
        row.rating = b.rating ∧ row.cover_url = b.coverUrl ∧
        row.version = b.version + 1 := by
    by_cases hex : db.books.any (fun r => r.id = b.id) = true
    · rw [if_pos hex] at hB
      obtain ⟨hhit, hU⟩ := update_eq_ok db b dbB hB
      subst hU
      refine ⟨rfl, rfl, ?_⟩
      simp only [List.any_eq_true] at hhit
      obtain ⟨rh, hrhmem, hrhhit⟩ := hhit
      simp only [Bool.and_eq_true, decide_eq_true_eq] at hrhhit
      have hfind2 := find?_update_books db b hids hrhmem hrhhit.1 hrhhit.2
      exact ⟨_, hfind2, rfl, hauthor rh hrhmem hrhhit.1, rfl, rfl, rfl, rfl,
        rfl, rfl, by rw [hrhhit.2]⟩
    · rw [if_neg hex] at hB
      injection hB with hB
      subst hB
      refine ⟨rfl, rfl, ?_⟩
      have hnone : db.books.find? (fun r => r.id = b.id) = none := by
        apply List.find?_eq_none.mpr
        intro r hr
        simp only [decide_eq_true_eq]
        intro hid
        exact hex (by
          simp only [List.any_eq_true]
          exact ⟨r, hr, by simp [hid]⟩)
      have hfind2 := find?_insert_books db b hnone
      exact ⟨_, hfind2, rfl, rfl, rfl, rfl, rfl, rfl, rfl, rfl, rfl⟩
  obtain ⟨hqB, hnB, row, hfind, hrtitle, hrauthor, hrpage, hrisbn, hryear,
    hrstatus, hrrating, hrcover, hrver⟩ := hrow
  have hdb1books : db1.books = dbB.books := by
    rw [hdb1, syncNotes_books, syncQuotes_books]
  have hdb1quotes : db1.quotes = db.quotes ++ b.quotes.map (quoteToRow b) := by
    rw [hdb1, syncNotes_quotes, syncQuotes_fresh _ _ (by rw [hqB]; exact hqfresh), hqB]
  have hdb1notes : db1.notes = db.notes ++ b.notes.map (noteToRow b) := by
    rw [hdb1,
      syncNotes_fresh _ _ (by rw [syncQuotes_notes, hnB]; exact hnfresh),
      syncQuotes_notes, hnB]
  have hqlist : (PostgresBookRepository.sortByKey (·.created_at)
      (db1.quotes.filter (fun r => r.book_id = b.id))).map (fun r =>
        ({ id := r.id, bookId := r.book_id, content := r.content,
           page := r.page, createdAt := r.created_at } : Quote)) = b.quotes := by
    rw [hdb1quotes, List.filter_append, hqfresh, List.nil_append,
      filter_quoteRows,
      sortByKey_of_sorted (fun r => r.created_at) (b.quotes.map (quoteToRow b))
        (List.pairwise_map.mpr hqsort),
      quoteRows_roundtrip b _ hqown]
  have hnlist : (PostgresBookRepository.sortByKey (·.created_at)
      (db1.notes.filter (fun r => r.book_id = b.id))).map (fun r =>
        ({ id := r.id, bookId := r.book_id, content := r.content,
           chapter := r.chapter, createdAt := r.created_at,
           updatedAt := r.created_at } : Note)) =
      b.notes.map (fun n => { n with updatedAt := n.createdAt }) := by
    rw [hdb1notes, List.filter_append, hnfresh, List.nil_append,
      filter_noteRows,
      sortByKey_of_sorted (fun r => r.created_at) (b.notes.map (noteToRow b))
        (List.pairwise_map.mpr hnsort),
      noteRows_roundtrip b _ hnown]
  refine ⟨_, findById_eval db1 b.id row (by rw [hdb1books]; exact hfind)
    b.status (by rw [hrstatus]; exact status_fromString_toStr b.status),
    hrtitle, hrauthor, hrpage, hrisbn, hryear, rfl, hrrating, hrcover,
    hqlist, hnlist, hrver, rfl⟩

/-- Witness for the amended C5: the concrete aggregate round-trips with
version 1, empty outbox, identical quotes, and the note's `updatedAt`
reset to its `createdAt`. -/
theorem save_findById_round_trip_witness :
    ∃ b1, PostgresBookRepository.findById exC5Db1 exC5Book.id =
        .ok (some b1) ∧
      b1.title = exC5Book.title ∧ b1.authorId = exC5Book.authorId ∧
      b1.pageCount = exC5Book.pageCount ∧ b1.isbn = exC5Book.isbn ∧
      b1.yearRead = exC5Book.yearRead ∧ b1.status = exC5Book.status ∧
      b1.rating = exC5Book.rating ∧ b1.coverUrl = exC5Book.coverUrl ∧
      b1.quotes = exC5Book.quotes ∧
      b1.notes = exC5Book.notes.map (fun n => { n with updatedAt := n.createdAt }) ∧
      b1.version = exC5Book.version + 1 ∧
      b1.domainEvents = [] :=
  save_findById_round_trip ⟨[], [], []⟩ exC5Db1 exC5Book (by rfl)
    (by simp) (by simp) (by rfl) (by rfl)
    (by decide) (by decide) (by decide) (by decide)

/-- C1 (projection handlers are not idempotent — evaluation at the
failing input): redelivering the same `QuoteAddedEvent` duplicates the
quote in the embedded array and double-increments the denormalized
`quotesCount` (2 instead of 1), and redelivering the same
`BookCreatedEvent` makes `insertOne` throw a duplicate-key error instead
of being a no-op; there is no processed-event marker anywhere. -/
theorem projection_handlers_not_idempotent :
    BookProjections.onBookCreated exC1Created 0 [] = .ok exC1Db1 ∧
    BookProjections.onBookCreated exC1Created 3 exC1Db1 =
      .error (.jsError "E11000 duplicate key error") ∧
    BookProjections.onQuoteAdded exC1Quote 1 exC1Db1 = exC1Db2 ∧
    BookProjections.onQuoteAdded exC1Quote 1 exC1Db2 ≠ exC1Db2 ∧
    (BookProjections.onQuoteAdded exC1Quote 1 exC1Db2).map
      (fun d => d.quotesCount) = [2] ∧
    (BookProjections.onQuoteAdded exC1Quote 1 exC1Db2).map
      (fun d => d.quotes.length) = [2] := by
  refine ⟨rfl, rfl, rfl, ?_, rfl, rfl⟩
  decide

end LMS
